import Mathlib

/-!
Shallow embedding of `src/filters.py` from niwinz/mesh-networking.

A packet is a Python `bytes` value or `None`: we model it as
`Option (List Nat)` where each list element is one byte value.
Interfaces are opaque identifiers (the code only ever uses them as
dictionary keys and via `str(interface)`); we model them as `String`.
Stateful filters are embedded as structures, and each `tr` (receive)
and `tx` (send) method becomes a state-passing function returning the
output packet together with the new filter state.
-/

/-! ## DuplicateFilter

State: `last_sent` and `last_recv`, `defaultdict(str)` keyed by
interface.  We model each as a total function `String → List Nat`
defaulting to the empty byte string (in Python the default is the str
`""`, which compares unequal to every non-empty bytes packet, exactly
like `[]` does here; empty packets never reach the comparison). -/

structure DuplicateFilter where
  last_sent : String → List Nat
  last_recv : String → List Nat

def DuplicateFilter.init : DuplicateFilter :=
  { last_sent := fun _ => [], last_recv := fun _ => [] }

def DuplicateFilter.tr (s : DuplicateFilter) (packet : Option (List Nat))
    (interface : String) : Option (List Nat) × DuplicateFilter :=
  match packet with
  | none => (none, s)
  | some l =>
    if l = [] ∨ l = s.last_recv interface then (none, s)
    else (some l,
      { s with last_recv := fun j => if j = interface then l else s.last_recv j })

def DuplicateFilter.tx (s : DuplicateFilter) (packet : Option (List Nat))
    (interface : String) : Option (List Nat) × DuplicateFilter :=
  match packet with
  | none => (none, s)
  | some l =>
    if l = [] ∨ l = s.last_sent interface then (none, s)
    else (some l,
      { s with last_sent := fun j => if j = interface then l else s.last_sent j })

/-! ## LoopbackFilter

State: `sent_hashes`, a `defaultdict(int)` keyed by `hash(packet)`.
Python's builtin `hash` on `bytes` is process-local (salted by
`PYTHONHASHSEED`), so the embedding takes the hash function used by a
given process run as an explicit parameter `h : List Nat → Int`.
Counts are Python ints, so the map's codomain is `Int`. -/

structure LoopbackFilter where
  sent_hashes : Int → Int

def LoopbackFilter.init : LoopbackFilter := { sent_hashes := fun _ => 0 }

def LoopbackFilter.tr (h : List Nat → Int) (s : LoopbackFilter)
    (packet : Option (List Nat)) (_interface : String) :
    Option (List Nat) × LoopbackFilter :=
  match packet with
  | none => (none, s)
  | some l =>
    if l = [] then (none, s)
    else if 0 < s.sent_hashes (h l) then
      (none, { sent_hashes := fun k =>
        if k = h l then s.sent_hashes (h l) - 1 else s.sent_hashes k })
    else (some l, s)

def LoopbackFilter.tx (h : List Nat → Int) (s : LoopbackFilter)
    (packet : Option (List Nat)) (_interface : String) :
    Option (List Nat) × LoopbackFilter :=
  match packet with
  | none => (none, s)
  | some l =>
    if l = [] then (none, s)
    else (some l, { sent_hashes := fun k => if k = h l then s.sent_hashes (h l) + 1 else s.sent_hashes k })

/-- One call to a LoopbackFilter (the code ignores the interface in
both methods, so a trace records only direction and packet). -/
inductive LoopCall where
  | recv (p : Option (List Nat))
  | send (p : Option (List Nat))

/-- Run a sequence of calls on a LoopbackFilter, earliest call first. -/
def LoopbackFilter.run (h : List Nat → Int) :
    List LoopCall → LoopbackFilter → LoopbackFilter
  | [], s => s
  | LoopCall.recv p :: rest, s => LoopbackFilter.run h rest (s.tr h p "i").2
  | LoopCall.send p :: rest, s => LoopbackFilter.run h rest (s.tx h p "i").2

/-! ## MD5 (RFC 1321)

`UniqueFilter.__md5__` calls `hashlib.md5(string.encode('utf-8')).hexdigest()`.
We embed the standard MD5 algorithm over byte lists, with 32-bit words
as `Nat` reduced modulo `2^32`, and the hexdigest as a list of
lowercase-hex characters. -/

/-- Left-rotate a 32-bit word. -/
def rotl32 (x n : Nat) : Nat := ((x <<< n) ||| (x >>> (32 - n))) % 4294967296

/-- The 64 MD5 sine-derived constants. -/
def md5K : List Nat :=
  [0xd76aa478, 0xe8c7b756, 0x242070db, 0xc1bdceee,
   0xf57c0faf, 0x4787c62a, 0xa8304613, 0xfd469501,
   0x698098d8, 0x8b44f7af, 0xffff5bb1, 0x895cd7be,
   0x6b901122, 0xfd987193, 0xa679438e, 0x49b40821,
   0xf61e2562, 0xc040b340, 0x265e5a51, 0xe9b6c7aa,
   0xd62f105d, 0x02441453, 0xd8a1e681, 0xe7d3fbc8,
   0x21e1cde6, 0xc33707d6, 0xf4d50d87, 0x455a14ed,
   0xa9e3e905, 0xfcefa3f8, 0x676f02d9, 0x8d2a4c8a,
   0xfffa3942, 0x8771f681, 0x6d9d6122, 0xfde5380c,
   0xa4beea44, 0x4bdecfa9, 0xf6bb4b60, 0xbebfbc70,
   0x289b7ec6, 0xeaa127fa, 0xd4ef3085, 0x04881d05,
   0xd9d4d039, 0xe6db99e5, 0x1fa27cf8, 0xc4ac5665,
   0xf4292244, 0x432aff97, 0xab9423a7, 0xfc93a039,
   0x655b59c3, 0x8f0ccc92, 0xffeff47d, 0x85845dd1,
   0x6fa87e4f, 0xfe2ce6e0, 0xa3014314, 0x4e0811a1,
   0xf7537e82, 0xbd3af235, 0x2ad7d2bb, 0xeb86d391]

/-- The 64 MD5 per-round rotation amounts. -/
def md5S : List Nat :=
  [7, 12, 17, 22, 7, 12, 17, 22, 7, 12, 17, 22, 7, 12, 17, 22,
   5, 9, 14, 20, 5, 9, 14, 20, 5, 9, 14, 20, 5, 9, 14, 20,
   4, 11, 16, 23, 4, 11, 16, 23, 4, 11, 16, 23, 4, 11, 16, 23,
   6, 10, 15, 21, 6, 10, 15, 21, 6, 10, 15, 21, 6, 10, 15, 21]

/-- Round function: F, G, H, I depending on the step index. -/
def md5Mix (i b c d : Nat) : Nat :=
  if i < 16 then (b &&& c) ||| ((b ^^^ 0xffffffff) &&& d)
  else if i < 32 then (d &&& b) ||| ((d ^^^ 0xffffffff) &&& c)
  else if i < 48 then b ^^^ c ^^^ d
  else c ^^^ (b ||| (d ^^^ 0xffffffff))

/-- Message-word index schedule. -/
def md5MsgIdx (i : Nat) : Nat :=
  if i < 16 then i
  else if i < 32 then (5 * i + 1) % 16
  else if i < 48 then (3 * i + 5) % 16
  else (7 * i) % 16

/-- Little-endian 32-bit word number `j` of a 64-byte block. -/
def leWord (bs : List Nat) (j : Nat) : Nat :=
  bs.getD (4 * j) 0 + 256 * bs.getD (4 * j + 1) 0 +
    65536 * bs.getD (4 * j + 2) 0 + 16777216 * bs.getD (4 * j + 3) 0

/-- One of the 64 MD5 steps. -/
def md5Step (w : Nat → Nat) (st : Nat × Nat × Nat × Nat) (i : Nat) :
    Nat × Nat × Nat × Nat :=
  let a := st.1
  let b := st.2.1
  let c := st.2.2.1
  let d := st.2.2.2
  let f := (md5Mix i b c d + a + md5K.getD i 0 + w (md5MsgIdx i)) % 4294967296
  (d, (b + rotl32 f (md5S.getD i 0)) % 4294967296, b, c)

/-- Process one 64-byte block. -/
def md5Block (st : Nat × Nat × Nat × Nat) (block : List Nat) :
    Nat × Nat × Nat × Nat :=
  let r := (List.range 64).foldl (md5Step (leWord block)) st
  ((st.1 + r.1) % 4294967296, (st.2.1 + r.2.1) % 4294967296,
   (st.2.2.1 + r.2.2.1) % 4294967296, (st.2.2.2 + r.2.2.2) % 4294967296)

/-- Little-endian 8-byte encoding (of the 64-bit message bit length). -/
def leBytes8 (n : Nat) : List Nat :=
  [n % 256, n / 256 % 256, n / 65536 % 256, n / 16777216 % 256,
   n / 4294967296 % 256, n / 1099511627776 % 256,
   n / 281474976710656 % 256, n / 72057594037927936 % 256]

/-- MD5 padding: append 0x80, zero-pad to 56 mod 64, append bit length. -/
def md5Pad (msg : List Nat) : List Nat :=
  msg ++ 0x80 :: List.replicate ((119 - msg.length % 64) % 64) 0 ++
    leBytes8 (8 * msg.length % 18446744073709551616)

/-- Split into 64-byte blocks (structural recursion on a fuel bound so
that the definition reduces inside the kernel; any fuel at least the
length of the list gives the same blocks, since every non-empty list
loses at least one element per step). -/
def toBlocksAux (fuel : Nat) (l : List Nat) : List (List Nat) :=
  match fuel, l with
  | _, [] => []
  | 0, _ => []
  | fuel + 1, l => l.take 64 :: toBlocksAux fuel (l.drop 64)

/-- Split into 64-byte blocks. -/
def toBlocks (l : List Nat) : List (List Nat) :=
  toBlocksAux l.length l

/-- The four-word MD5 state after absorbing the padded message. -/
def md5words (msg : List Nat) : Nat × Nat × Nat × Nat :=
  (toBlocks (md5Pad msg)).foldl md5Block
    (0x67452301, 0xefcdab89, 0x98badcfe, 0x10325476)

/-- Serialize a 32-bit word to 4 little-endian bytes. -/
def wordLE4 (w : Nat) : List Nat :=
  [w % 256, w / 256 % 256, w / 65536 % 256, w / 16777216 % 256]

/-- The 16-byte MD5 digest of a byte string. -/
def md5bytes (msg : List Nat) : List Nat :=
  wordLE4 (md5words msg).1 ++ wordLE4 (md5words msg).2.1 ++
    wordLE4 (md5words msg).2.2.1 ++ wordLE4 (md5words msg).2.2.2

/-- Lowercase hexadecimal digit character for a nibble. -/
def hexDigitChar (n : Nat) : Char :=
  if n < 10 then Char.ofNat (48 + n) else Char.ofNat (97 + (n - 10))

/-- Two lowercase hex characters for one byte. -/
def byteToHexChars (b : Nat) : List Char :=
  [hexDigitChar (b / 16 % 16), hexDigitChar (b % 16)]

/-- `hashlib.md5(msg).hexdigest()` as a list of characters (a Python str). -/
def md5hexStr (msg : List Nat) : List Char :=
  (md5bytes msg).flatMap byteToHexChars

/-- UTF-8 encoding of one character (`str.encode('utf-8')`, per character). -/
def utf8EncodeChar (c : Char) : List Nat :=
  let n := c.toNat
  if n < 128 then [n]
  else if n < 2048 then [192 + n / 64, 128 + n % 64]
  else if n < 65536 then [224 + n / 4096, 128 + n / 64 % 64, 128 + n % 64]
  else [240 + n / 262144, 128 + n / 4096 % 64, 128 + n / 64 % 64, 128 + n % 64]

/-- UTF-8 encoding of a character list. -/
def utf8Encode (cs : List Char) : List Nat :=
  cs.flatMap utf8EncodeChar

/-- UTF-8 encoding of a `String` (`s.encode('utf-8')`). -/
def utf8EncodeStr (s : String) : List Nat :=
  utf8Encode s.toList

/-! ## UniqueFilter

State: `seen` (a Python `set`) and `our_id` (a Python str fixed at
construction, `str(random.randint(10000, 99999))`; we take it as a
parameter of `init`).  The values put into `seen` are of two distinct
Python types: `tx` on a locally-originated packet adds the hexdigest
*str*, while `tx` on a relayed packet and `tr` add the *bytes* slice
`packet[5:37]`.  In Python 3 a str and a bytes value are never equal,
so the embedding keeps the two apart with an explicit sum type. -/

/-- A Python value that is either a `str` or a `bytes`; values of the
two kinds are never equal (as in Python 3). -/
inductive PySB where
  | pstr (cs : List Char)
  | pbytes (bs : List Nat)
deriving DecidableEq

/-- The five bytes of the literal `b"HASH:"`. -/
def hashMarker : List Nat := [72, 65, 83, 72, 58]

/-- The two bytes of the literal `b"; "`. -/
def semiSpace : List Nat := [59, 32]

structure UniqueFilter where
  seen : Finset PySB
  our_id : String

def UniqueFilter.init (our_id : String) : UniqueFilter :=
  { seen := ∅, our_id := our_id }

def UniqueFilter.tr (s : UniqueFilter) (packet : Option (List Nat))
    (_interface : String) : Option (List Nat) × UniqueFilter :=
  match packet with
  | none => (none, s)
  | some l =>
    if l = [] then (none, s)
    else if l.take 5 = hashMarker then
      if PySB.pbytes ((l.drop 5).take 32) ∈ s.seen then (none, s)
      else (some l, { s with seen := insert (PySB.pbytes ((l.drop 5).take 32)) s.seen })
    else (none, s)

def UniqueFilter.tx (now : String) (s : UniqueFilter) (packet : Option (List Nat))
    (interface : String) : Option (List Nat) × UniqueFilter :=
  match packet with
  | none => (none, s)
  | some l =>
    if l = [] then (none, s)
    else if l.take 5 = hashMarker then
      (some l, { s with seen := insert (PySB.pbytes ((l.drop 5).take 32)) s.seen })
    else
      (some (hashMarker ++ utf8Encode (md5hexStr (utf8EncodeStr (s.our_id ++ interface ++ now))) ++ semiSpace ++ l),
       { s with seen := insert (PySB.pstr (md5hexStr (utf8EncodeStr (s.our_id ++ interface ++ now)))) s.seen })

/-! ## StringFilter

The factory `StringFilter.match(pattern, inverse)` dynamically creates
a subclass carrying `pattern` and `inverse` as class attributes; the
embedding replaces the dynamic class with a plain structure holding the
two fields (`match` is a Lean keyword, so the factory keeps the
apostrophe-variant of its name). -/

structure StringFilter where
  pattern : List Nat
  inverse : Bool

def StringFilter.tr (f : StringFilter) (packet : Option (List Nat))
    (_interface : String) : Option (List Nat) :=
  match packet with
  | none => none
  | some l =>
    if l = [] then none
    else if f.inverse = false then
      if f.pattern <:+: l then some l else none
    else
      if f.pattern <:+: l then none else some l

/-- `tx` is inherited from `BaseFilter`: the identity. -/
def StringFilter.tx (_f : StringFilter) (packet : Option (List Nat))
    (_interface : String) : Option (List Nat) :=
  packet

def StringFilter.match' (pattern : List Nat) (inverse : Bool) : StringFilter :=
  { pattern := pattern, inverse := inverse }

def StringFilter.dontmatch (pattern : List Nat) : StringFilter :=
  StringFilter.match' pattern true

/-- Byte encoding of an ASCII string literal, for writing packets such
as `b"xfoox"`. -/
def asciiBytes (s : String) : List Nat :=
  s.toList.map Char.toNat

/-! ## Claim theorems -/

/-- C5: StringFilter match/invert behaviour. `match("foo")` passes
`b"xfoox"` through unchanged; `dontmatch("foo")` drops it; both return
absent on absent input; in general, for a non-empty packet, with
invert false the packet is returned exactly when the pattern is a
contiguous substring of it, and with invert true exactly when it is
not. -/
theorem stringFilter_match_invert (pat l : List Nat) (i : String) (hl : l ≠ []) :
    ((StringFilter.match' (asciiBytes "foo") false).tr (some (asciiBytes "xfoox")) i
        = some (asciiBytes "xfoox"))
    ∧ ((StringFilter.dontmatch (asciiBytes "foo")).tr (some (asciiBytes "xfoox")) i = none)
    ∧ ((StringFilter.match' pat false).tr none i = none)
    ∧ ((StringFilter.dontmatch pat).tr none i = none)
    ∧ ((StringFilter.match' pat false).tr (some l) i = some l ↔ pat <:+: l)
    ∧ ((StringFilter.dontmatch pat).tr (some l) i = some l ↔ ¬ pat <:+: l) := by
  have hfoo : asciiBytes "foo" <:+: asciiBytes "xfoox" := by decide
  have hx : asciiBytes "xfoox" ≠ [] := by decide
  refine ⟨?_, ?_, rfl, rfl, ?_, ?_⟩
  · simp [StringFilter.tr, StringFilter.match', hfoo, hx]
  · simp [StringFilter.tr, StringFilter.dontmatch, StringFilter.match', hfoo, hx]
  · by_cases hp : pat <:+: l <;>
      simp [StringFilter.tr, StringFilter.match', hl, hp]
  · by_cases hp : pat <:+: l <;>
      simp [StringFilter.tr, StringFilter.dontmatch, StringFilter.match', hl, hp]

/-- C5 witness: the general part instantiated at pattern `b"foo"`,
packet `b"xfoox"`. -/
theorem stringFilter_match_invert_witness :
    ((StringFilter.match' (asciiBytes "foo") false).tr (some (asciiBytes "xfoox")) "eth0"
        = some (asciiBytes "xfoox"))
    ∧ ((StringFilter.dontmatch (asciiBytes "foo")).tr (some (asciiBytes "xfoox")) "eth0" = none)
    ∧ ((StringFilter.match' (asciiBytes "foo") false).tr none "eth0" = none)
    ∧ ((StringFilter.dontmatch (asciiBytes "foo")).tr none "eth0" = none)
    ∧ ((StringFilter.match' (asciiBytes "foo") false).tr (some (asciiBytes "xfoox")) "eth0"
        = some (asciiBytes "xfoox") ↔ asciiBytes "foo" <:+: asciiBytes "xfoox")
    ∧ ((StringFilter.dontmatch (asciiBytes "foo")).tr (some (asciiBytes "xfoox")) "eth0"
        = some (asciiBytes "xfoox") ↔ ¬ asciiBytes "foo" <:+: asciiBytes "xfoox") :=
  stringFilter_match_invert (asciiBytes "foo") (asciiBytes "xfoox") "eth0" (by decide)

/-- C10: an empty-but-present packet (Python `b""`, falsy but not
`None`) is dropped by every filter operation that tests truthiness:
both DuplicateFilter methods, both LoopbackFilter methods, both
UniqueFilter methods and StringFilter's receive all return absent on
it, in every filter state and on every interface. -/
theorem empty_packet_dropped (d : DuplicateFilter) (lb : LoopbackFilter)
    (h : List Nat → Int) (u : UniqueFilter) (f : StringFilter) (i now : String) :
    (d.tr (some []) i).1 = none ∧ (d.tx (some []) i).1 = none
    ∧ (lb.tr h (some []) i).1 = none ∧ (lb.tx h (some []) i).1 = none
    ∧ (u.tr (some []) i).1 = none ∧ (u.tx now (some []) i).1 = none
    ∧ f.tr (some []) i = none := by
  refine ⟨?_, ?_, ?_, ?_, ?_, ?_, ?_⟩ <;>
    simp [DuplicateFilter.tr, DuplicateFilter.tx, LoopbackFilter.tr, LoopbackFilter.tx,
      UniqueFilter.tr, UniqueFilter.tx, StringFilter.tr]

/-- C6: UniqueFilter.receive drops every non-empty packet that does
not begin with the `HASH:` marker, and leaves the whole filter state
(in particular the seen set) unchanged. -/
theorem uniqueFilter_untagged_recv_drop (s : UniqueFilter) (p : List Nat) (i : String)
    (hp : p ≠ []) (hm : p.take 5 ≠ hashMarker) :
    s.tr (some p) i = (none, s) := by
  simp [UniqueFilter.tr, hp, hm]

/-- C6 witness: the untagged four-byte packet `b"data"` is dropped by
receive on a fresh filter, with the state unchanged. -/
theorem uniqueFilter_untagged_recv_drop_witness :
    (UniqueFilter.init "12345").tr (some (asciiBytes "data")) "eth0"
      = (none, UniqueFilter.init "12345") :=
  uniqueFilter_untagged_recv_drop (UniqueFilter.init "12345") (asciiBytes "data") "eth0"
    (by decide) (by decide)

/-- C1: DuplicateFilter duplicate-suppression semantics.  For a
non-empty packet `p` that is not already the last packet received on
interface `i`: two consecutive receives of `p` on `i` return `p` then
absent; an intervening different non-empty packet `q` resets the
suppression, so the next receive of `p` returns `p` again; and a fresh
filter passes `p` on `"eth0"` and then on `"eth1"` (no cross-interface
suppression). -/
theorem duplicateFilter_suppression (s : DuplicateFilter) (p q : List Nat) (i : String)
    (hp : p ≠ []) (hq : q ≠ []) (hqp : q ≠ p) (hlast : s.last_recv i ≠ p) :
    ((s.tr (some p) i).1 = some p
      ∧ (((s.tr (some p) i).2).tr (some p) i).1 = none)
    ∧ ((((((s.tr (some p) i).2).tr (some q) i).2).tr (some p) i).1 = some p)
    ∧ ((DuplicateFilter.init.tr (some p) "eth0").1 = some p
      ∧ (((DuplicateFilter.init.tr (some p) "eth0").2).tr (some p) "eth1").1 = some p) := by
  have heth : ("eth1" : String) ≠ "eth0" := by decide
  refine ⟨⟨?_, ?_⟩, ?_, ?_, ?_⟩ <;>
    simp [DuplicateFilter.tr, DuplicateFilter.init, hp, hq, hqp, Ne.symm hlast,
      Ne.symm hqp, heth]

/-- C1 witness: the suppression properties at packets `b"a"`, `b"b"`
on interface `"i"` of a fresh filter. -/
theorem duplicateFilter_suppression_witness :
    ((DuplicateFilter.init.tr (some [97]) "i").1 = some [97]
      ∧ (((DuplicateFilter.init.tr (some [97]) "i").2).tr (some [97]) "i").1 = none)
    ∧ ((((((DuplicateFilter.init.tr (some [97]) "i").2).tr (some [98]) "i").2).tr
        (some [97]) "i").1 = some [97])
    ∧ ((DuplicateFilter.init.tr (some [97]) "eth0").1 = some [97]
      ∧ (((DuplicateFilter.init.tr (some [97]) "eth0").2).tr (some [97]) "eth1").1
          = some [97]) :=
  duplicateFilter_suppression DuplicateFilter.init [97] [98] "i"
    (by decide) (by decide) (by decide) (by decide)

/-- C2: LoopbackFilter credit conservation.  From a fresh filter,
`send(p, i1); send(p, i2)` both pass `p` through unchanged; the next
two `receive(p, i3)` calls are suppressed (one credit consumed per
prior send); a third `receive(p, i3)` passes `p` through unchanged. -/
theorem loopbackFilter_credit (h : List Nat → Int) (p : List Nat)
    (i1 i2 i3 : String) (hp : p ≠ []) :
    (LoopbackFilter.init.tx h (some p) i1).1 = some p
    ∧ (((LoopbackFilter.init.tx h (some p) i1).2).tx h (some p) i2).1 = some p
    ∧ (((((LoopbackFilter.init.tx h (some p) i1).2).tx h (some p) i2).2).tr h
        (some p) i3).1 = none
    ∧ (((((((LoopbackFilter.init.tx h (some p) i1).2).tx h (some p) i2).2).tr h
        (some p) i3).2).tr h (some p) i3).1 = none
    ∧ (((((((((LoopbackFilter.init.tx h (some p) i1).2).tx h (some p) i2).2).tr h
        (some p) i3).2).tr h (some p) i3).2).tr h (some p) i3).1 = some p := by
  simp only [LoopbackFilter.tx, LoopbackFilter.tr, LoopbackFilter.init]
  norm_num [hp]

/-- C2 witness: the credit-conservation run at packet `b"a"` with hash
function constantly `7` and interfaces `"e0"`, `"e1"`, `"e2"`. -/
theorem loopbackFilter_credit_witness :
    (LoopbackFilter.init.tx (fun _ => 7) (some [97]) "e0").1 = some [97]
    ∧ (((LoopbackFilter.init.tx (fun _ => 7) (some [97]) "e0").2).tx (fun _ => 7)
        (some [97]) "e1").1 = some [97]
    ∧ (((((LoopbackFilter.init.tx (fun _ => 7) (some [97]) "e0").2).tx (fun _ => 7)
        (some [97]) "e1").2).tr (fun _ => 7) (some [97]) "e2").1 = none
    ∧ (((((((LoopbackFilter.init.tx (fun _ => 7) (some [97]) "e0").2).tx (fun _ => 7)
        (some [97]) "e1").2).tr (fun _ => 7) (some [97]) "e2").2).tr (fun _ => 7)
        (some [97]) "e2").1 = none
    ∧ (((((((((LoopbackFilter.init.tx (fun _ => 7) (some [97]) "e0").2).tx (fun _ => 7)
        (some [97]) "e1").2).tr (fun _ => 7) (some [97]) "e2").2).tr (fun _ => 7)
        (some [97]) "e2").2).tr (fun _ => 7) (some [97]) "e2").1 = some [97] :=
  loopbackFilter_credit (fun _ => 7) [97] "e0" "e1" "e2" (by decide)

/-- C7: UniqueFilter seen-set monotonicity: every receive and every
send call, on any packet (absent, tagged or untagged), produces a seen
set containing the one before the call; nothing is ever removed. -/
theorem uniqueFilter_seen_monotone (s : UniqueFilter) (p : Option (List Nat))
    (i now : String) :
    s.seen ⊆ ((s.tr p i).2).seen ∧ s.seen ⊆ ((s.tx now p i).2).seen := by
  constructor <;>
    (cases p with
     | none => simp [UniqueFilter.tr, UniqueFilter.tx]
     | some l =>
       simp only [UniqueFilter.tr, UniqueFilter.tx]
       split_ifs <;> simp [Finset.subset_insert])

/-- The per-bucket counts stay non-negative across one receive call. -/
lemma LoopbackFilter.tr_nonneg (h : List Nat → Int) (s : LoopbackFilter)
    (p : Option (List Nat)) (i : String) (hs : ∀ k, 0 ≤ s.sent_hashes k) :
    ∀ k, 0 ≤ ((s.tr h p i).2).sent_hashes k := by
  intro k
  cases p with
  | none => exact hs k
  | some l =>
    by_cases h1 : l = []
    · simpa [LoopbackFilter.tr, h1] using hs k
    · by_cases h2 : 0 < s.sent_hashes (h l)
      · by_cases h3 : k = h l
        · subst h3
          simp only [LoopbackFilter.tr, h1, if_neg, if_pos, h2, if_true, ite_true]
          simp [h2]
          omega
        · simpa [LoopbackFilter.tr, h1, h2, h3] using hs k
      · simpa [LoopbackFilter.tr, h1, h2] using hs k

/-- The per-bucket counts stay non-negative across one send call. -/
lemma LoopbackFilter.tx_nonneg (h : List Nat → Int) (s : LoopbackFilter)
    (p : Option (List Nat)) (i : String) (hs : ∀ k, 0 ≤ s.sent_hashes k) :
    ∀ k, 0 ≤ ((s.tx h p i).2).sent_hashes k := by
  intro k
  cases p with
  | none => exact hs k
  | some l =>
    by_cases h1 : l = []
    · simpa [LoopbackFilter.tx, h1] using hs k
    · by_cases h3 : k = h l
      · subst h3
        simp [LoopbackFilter.tx, h1]
        have := hs (h l)
        omega
      · simpa [LoopbackFilter.tx, h1, h3] using hs k

/-- Non-negativity is preserved along any call sequence. -/
lemma LoopbackFilter.run_nonneg (h : List Nat → Int) (calls : List LoopCall)
    (s : LoopbackFilter) (hs : ∀ k, 0 ≤ s.sent_hashes k) :
    ∀ k, 0 ≤ (LoopbackFilter.run h calls s).sent_hashes k := by
  induction calls generalizing s with
  | nil => exact hs
  | cons c rest ih =>
    cases c with
    | recv p => exact ih _ (LoopbackFilter.tr_nonneg h s p "i" hs)
    | send p => exact ih _ (LoopbackFilter.tx_nonneg h s p "i" hs)

/-- C8: LoopbackFilter counter invariant.  After any call sequence
from a fresh filter every bucket count is non-negative, and a receive
call changes a bucket only by decrementing it by exactly 1, which it
does only when the count was strictly positive (i.e. only after a
matching send had incremented it). -/
theorem loopbackFilter_counter_invariant (h : List Nat → Int)
    (calls : List LoopCall) (k : Int) (p : Option (List Nat)) (i : String) :
    let s := LoopbackFilter.run h calls LoopbackFilter.init
    0 ≤ s.sent_hashes k
    ∧ (((s.tr h p i).2).sent_hashes k ≠ s.sent_hashes k →
        ((s.tr h p i).2).sent_hashes k = s.sent_hashes k - 1
          ∧ 0 < s.sent_hashes k) := by
  intro s
  have hnn : ∀ k, 0 ≤ s.sent_hashes k :=
    LoopbackFilter.run_nonneg h calls LoopbackFilter.init (fun _ => le_refl 0)
  refine ⟨hnn k, ?_⟩
  intro hne
  cases p with
  | none => simp [LoopbackFilter.tr] at hne
  | some l =>
    by_cases h1 : l = []
    · simp [LoopbackFilter.tr, h1] at hne
    · by_cases h2 : 0 < s.sent_hashes (h l)
      · by_cases h3 : k = h l
        · subst h3
          simp [LoopbackFilter.tr, h1, h2]
        · simp [LoopbackFilter.tr, h1, h2, h3] at hne
      · simp [LoopbackFilter.tr, h1, h2] at hne

/-- C9: the LoopbackFilter suppression mechanism is sound only if the
receive-side hash function equals the send-side one: if the process
hashing differs between the send and the receive (as Python's salted
`hash` does across processes), the echoed copy of a just-sent packet
is passed through instead of suppressed. -/
theorem loopbackFilter_hash_dependence (h1 h2 : List Nat → Int) (p : List Nat)
    (i1 i2 : String) (hp : p ≠ []) (hne : h1 p ≠ h2 p) :
    ((LoopbackFilter.init.tx h1 (some p) i1).2).tr h2 (some p) i2
      = (some p, (LoopbackFilter.init.tx h1 (some p) i1).2) := by
  simp [LoopbackFilter.tx, LoopbackFilter.tr, LoopbackFilter.init, hp, Ne.symm hne]

/-- C9 witness: with send-time hash constantly `0` and receive-time
hash constantly `1`, the echo of `b"a"` is not suppressed. -/
theorem loopbackFilter_hash_dependence_witness :
    ((LoopbackFilter.init.tx (fun _ => 0) (some [97]) "e0").2).tr (fun _ => 1)
        (some [97]) "e1"
      = (some [97], (LoopbackFilter.init.tx (fun _ => 0) (some [97]) "e0").2) :=
  loopbackFilter_hash_dependence (fun _ => 0) (fun _ => 1) [97] "e0" "e1"
    (by decide) (by decide)

/-! ## Support lemmas about the digest and its rendering -/

lemma hexDigitChar_mem (n : Nat) (hn : n < 16) :
    hexDigitChar n ∈ "0123456789abcdef".toList := by
  interval_cases n <;> decide

lemma hexDigitChar_toNat_lt (n : Nat) (hn : n < 16) : (hexDigitChar n).toNat < 128 := by
  interval_cases n <;> decide

lemma byteToHexChars_mem (b : Nat) :
    ∀ c ∈ byteToHexChars b, c ∈ "0123456789abcdef".toList := by
  intro c hc
  simp only [byteToHexChars, List.mem_cons, List.not_mem_nil, or_false] at hc
  rcases hc with rfl | rfl
  · exact hexDigitChar_mem _ (Nat.mod_lt _ (by norm_num))
  · exact hexDigitChar_mem _ (Nat.mod_lt _ (by norm_num))

lemma md5hexStr_mem (m : List Nat) :
    ∀ c ∈ md5hexStr m, c ∈ "0123456789abcdef".toList := by
  intro c hc
  simp only [md5hexStr, List.mem_flatMap] at hc
  obtain ⟨b, _, hcb⟩ := hc
  exact byteToHexChars_mem b c hcb

lemma length_flatMap_byteToHexChars (l : List Nat) :
    (l.flatMap byteToHexChars).length = 2 * l.length := by
  induction l with
  | nil => rfl
  | cons b t ih =>
    simp only [List.flatMap_cons, List.length_append, List.length_cons, ih, byteToHexChars,
      List.length_nil]
    omega

lemma md5bytes_length (m : List Nat) : (md5bytes m).length = 16 := by
  simp [md5bytes, wordLE4]

lemma md5hexStr_length (m : List Nat) : (md5hexStr m).length = 32 := by
  show ((md5bytes m).flatMap byteToHexChars).length = 32
  rw [length_flatMap_byteToHexChars, md5bytes_length]

lemma wordLE4_lt (w : Nat) : ∀ b ∈ wordLE4 w, b < 256 := by
  intro b hb
  simp only [wordLE4, List.mem_cons, List.not_mem_nil, or_false] at hb
  rcases hb with rfl | rfl | rfl | rfl <;> exact Nat.mod_lt _ (by norm_num)

lemma md5bytes_lt (m : List Nat) : ∀ b ∈ md5bytes m, b < 256 := by
  intro b hb
  simp only [md5bytes, List.mem_append] at hb
  rcases hb with ((hb | hb) | hb) | hb <;> exact wordLE4_lt _ b hb

lemma utf8EncodeChar_ascii (c : Char) (hc : c.toNat < 128) :
    utf8EncodeChar c = [c.toNat] := by
  simp [utf8EncodeChar, hc]

lemma utf8Encode_ascii (cs : List Char) (h : ∀ c ∈ cs, c.toNat < 128) :
    utf8Encode cs = cs.map Char.toNat := by
  induction cs with
  | nil => rfl
  | cons c t ih =>
    have hc := h c (List.mem_cons_self c t)
    have ht : ∀ x ∈ t, x.toNat < 128 := fun x hx => h x (List.mem_cons_of_mem c hx)
    simp only [utf8Encode, List.flatMap_cons, List.map_cons] at *
    rw [utf8EncodeChar_ascii c hc, ih ht, List.singleton_append]

lemma md5hex_ascii (m : List Nat) :
    utf8Encode (md5hexStr m) = (md5hexStr m).map Char.toNat := by
  apply utf8Encode_ascii
  intro c hc
  have hmem := md5hexStr_mem m c hc
  fin_cases hmem <;> decide

lemma utf8Encode_md5hexStr_length (m : List Nat) :
    (utf8Encode (md5hexStr m)).length = 32 := by
  rw [md5hex_ascii, List.length_map, md5hexStr_length]

/-- The packet produced by `UniqueFilter.tx` for a locally-originated
payload `p` sent on interface `i` at time `now`. -/
def taggedPacket (s : UniqueFilter) (i now : String) (p : List Nat) : List Nat :=
  hashMarker ++ utf8Encode (md5hexStr (utf8EncodeStr (s.our_id ++ i ++ now))) ++ semiSpace ++ p

lemma taggedPacket_ne_nil (s : UniqueFilter) (i now : String) (p : List Nat) :
    taggedPacket s i now p ≠ [] := by
  simp [taggedPacket, hashMarker]

lemma taggedPacket_take5 (s : UniqueFilter) (i now : String) (p : List Nat) :
    (taggedPacket s i now p).take 5 = hashMarker := by
  simp only [taggedPacket, List.append_assoc]
  exact List.take_left' rfl

lemma taggedPacket_extract (s : UniqueFilter) (i now : String) (p : List Nat) :
    ((taggedPacket s i now p).drop 5).take 32
      = utf8Encode (md5hexStr (utf8EncodeStr (s.our_id ++ i ++ now))) := by
  simp only [taggedPacket, List.append_assoc]
  have h5 : hashMarker.length = 5 := rfl
  rw [List.drop_left' h5]
  exact List.take_left' (utf8Encode_md5hexStr_length _)

/-- C4: UniqueFilter wire format.  For a non-empty untagged packet,
`send` returns exactly `HASH:` + identifier + `"; "` + original
payload; the identifier consists of 32 lowercase-hex characters and is
the hex rendering of the 16-byte (128-bit) MD5 digest of the UTF-8
bytes of node-instance id ++ interface (as text) ++ timestamp. -/
theorem uniqueFilter_wire_format (s : UniqueFilter) (p : List Nat) (i now : String)
    (hp : p ≠ []) (hm : p.take 5 ≠ hashMarker) :
    ((s.tx now (some p) i).1
        = some (hashMarker
            ++ (md5hexStr (utf8EncodeStr (s.our_id ++ i ++ now))).map Char.toNat
            ++ semiSpace ++ p))
    ∧ (md5hexStr (utf8EncodeStr (s.our_id ++ i ++ now))).length = 32
    ∧ (∀ c ∈ md5hexStr (utf8EncodeStr (s.our_id ++ i ++ now)),
        c ∈ "0123456789abcdef".toList)
    ∧ md5hexStr (utf8EncodeStr (s.our_id ++ i ++ now))
        = (md5bytes (utf8EncodeStr (s.our_id ++ i ++ now))).flatMap byteToHexChars
    ∧ (md5bytes (utf8EncodeStr (s.our_id ++ i ++ now))).length = 16
    ∧ (∀ b ∈ md5bytes (utf8EncodeStr (s.our_id ++ i ++ now)), b < 256) := by
  refine ⟨?_, md5hexStr_length _, md5hexStr_mem _, rfl, md5bytes_length _, md5bytes_lt _⟩
  simp [UniqueFilter.tx, hp, hm, md5hex_ascii]

/-- C4 witness: the wire format at node id `"12345"`, payload
`b"data"`, interface `"eth0"`, timestamp `"1700000000.123"`. -/
theorem uniqueFilter_wire_format_witness :
    (((UniqueFilter.init "12345").tx "1700000000.123" (some (asciiBytes "data")) "eth0").1
        = some (hashMarker
            ++ (md5hexStr (utf8EncodeStr ((UniqueFilter.init "12345").our_id
                  ++ "eth0" ++ "1700000000.123"))).map Char.toNat
            ++ semiSpace ++ asciiBytes "data"))
    ∧ (md5hexStr (utf8EncodeStr ((UniqueFilter.init "12345").our_id
        ++ "eth0" ++ "1700000000.123"))).length = 32
    ∧ (∀ c ∈ md5hexStr (utf8EncodeStr ((UniqueFilter.init "12345").our_id
        ++ "eth0" ++ "1700000000.123")), c ∈ "0123456789abcdef".toList)
    ∧ md5hexStr (utf8EncodeStr ((UniqueFilter.init "12345").our_id
        ++ "eth0" ++ "1700000000.123"))
        = (md5bytes (utf8EncodeStr ((UniqueFilter.init "12345").our_id
            ++ "eth0" ++ "1700000000.123"))).flatMap byteToHexChars
    ∧ (md5bytes (utf8EncodeStr ((UniqueFilter.init "12345").our_id
        ++ "eth0" ++ "1700000000.123"))).length = 16
    ∧ (∀ b ∈ md5bytes (utf8EncodeStr ((UniqueFilter.init "12345").our_id
        ++ "eth0" ++ "1700000000.123")), b < 256) :=
  uniqueFilter_wire_format (UniqueFilter.init "12345") (asciiBytes "data")
    "eth0" "1700000000.123" (by decide) (by decide)

/-- C3 (behaviour the code actually has): `send` on a non-empty
untagged packet produces the tagged packet; feeding that output back
into `receive` on the same instance returns the packet (NOT absent:
`tx` recorded the generated identifier as a Python str, but `tr`
compares the extracted bytes slice, and a str never equals a bytes
value), provided the bytes identifier was not already in `seen`;
feeding it into a fresh instance's `receive` returns the packet once,
and a second identical `receive` there returns absent. -/
theorem uniqueFilter_uniqueness_behavior (s : UniqueFilter) (p : List Nat)
    (i i2 i3 i4 now id2 : String) (hp : p ≠ []) (hm : p.take 5 ≠ hashMarker)
    (hseen : PySB.pbytes (utf8Encode (md5hexStr (utf8EncodeStr (s.our_id ++ i ++ now))))
        ∉ s.seen) :
    ((s.tx now (some p) i).1 = some (taggedPacket s i now p))
    ∧ (((s.tx now (some p) i).2).tr (some (taggedPacket s i now p)) i2).1
        = some (taggedPacket s i now p)
    ∧ (((UniqueFilter.init id2).tr (some (taggedPacket s i now p)) i3).1
        = some (taggedPacket s i now p))
    ∧ (((((UniqueFilter.init id2).tr (some (taggedPacket s i now p)) i3).2).tr
          (some (taggedPacket s i now p)) i4).1 = none) := by
  have htx : s.tx now (some p) i
      = (some (taggedPacket s i now p),
         { s with seen := insert (PySB.pstr (md5hexStr (utf8EncodeStr (s.our_id ++ i ++ now)))) s.seen }) := by
    simp [UniqueFilter.tx, hp, hm, taggedPacket]
  refine ⟨by rw [htx], ?_, ?_, ?_⟩
  · rw [htx]
    simp [UniqueFilter.tr, taggedPacket_ne_nil, taggedPacket_take5, taggedPacket_extract,
      hseen]
  · simp [UniqueFilter.tr, UniqueFilter.init, taggedPacket_ne_nil, taggedPacket_take5]
  · simp [UniqueFilter.tr, UniqueFilter.init, taggedPacket_ne_nil, taggedPacket_take5,
      taggedPacket_extract]

/-- C3 witness: the same-instance pass-through and the fresh-instance
pass-then-drop at node ids `"12345"` and `"67890"`, payload `b"data"`,
interface `"eth0"`, timestamp `"1700000000.123"`. -/
theorem uniqueFilter_uniqueness_behavior_witness :
    (((UniqueFilter.init "12345").tx "1700000000.123" (some (asciiBytes "data")) "eth0").1
        = some (taggedPacket (UniqueFilter.init "12345") "eth0" "1700000000.123"
            (asciiBytes "data")))
    ∧ ((((UniqueFilter.init "12345").tx "1700000000.123" (some (asciiBytes "data"))
          "eth0").2).tr
        (some (taggedPacket (UniqueFilter.init "12345") "eth0" "1700000000.123"
          (asciiBytes "data"))) "eth0").1
        = some (taggedPacket (UniqueFilter.init "12345") "eth0" "1700000000.123"
            (asciiBytes "data"))
    ∧ (((UniqueFilter.init "67890").tr
        (some (taggedPacket (UniqueFilter.init "12345") "eth0" "1700000000.123"
          (asciiBytes "data"))) "eth1").1
        = some (taggedPacket (UniqueFilter.init "12345") "eth0" "1700000000.123"
            (asciiBytes "data")))
    ∧ (((((UniqueFilter.init "67890").tr
          (some (taggedPacket (UniqueFilter.init "12345") "eth0" "1700000000.123"
            (asciiBytes "data"))) "eth1").2).tr
          (some (taggedPacket (UniqueFilter.init "12345") "eth0" "1700000000.123"
            (asciiBytes "data"))) "eth1").1 = none) :=
  uniqueFilter_uniqueness_behavior (UniqueFilter.init "12345") (asciiBytes "data")
    "eth0" "eth0" "eth1" "eth1" "1700000000.123" "67890"
    (by decide) (by decide) (Finset.not_mem_empty _)
